import Mathlib

/-!
# Verification of the mcp-hub configuration reconciliation core

A shallow embedding of the mcp-hub repository (a Tauri + React application
that reconciles a registry of MCP server definitions into per-client
configuration files).  Data types follow `src/types/index.ts`; the frontend
store logic follows the zustand store; the Instances page drift helper and
the Dashboard partition follow `src/pages/Instances.tsx` and the Dashboard
component.  The Rust backend commands (`sync_instance`, `sync_all_instances`,
backup and merge logic) are not part of the frontend sources, so they are
modelled from the specification, as marked on each definition.
-/

set_option autoImplicit false

namespace McpHub

/-- A server definition, from `McpServer` in `src/types/index.ts`.
Timestamps are modelled as natural numbers, ISO strings in the source. -/
structure McpServer where
  id : String
  name : String
  description : Option String
  command : String
  args : List String
  env : List (String × String)
  tags : List String
  createdAt : Nat
  updatedAt : Nat
  deriving DecidableEq, Repr

/-- A client instance, from `ClientInstance` in `src/types/index.ts`.
`clientType` is one of a closed string enumeration in the source; it is kept
as a plain string here.  The optional ISO timestamp strings `lastSynced` and
`lastModified` are modelled as `Option Nat`. -/
structure ClientInstance where
  id : String
  name : String
  clientType : String
  configPath : String
  enabledServers : List String
  isDefault : Bool
  lastSynced : Option Nat
  lastModified : Option Nat
  createdAt : Nat
  deriving DecidableEq, Repr

/-- A server entry inside a config file, from `McpServerEntry` in
`src/types/index.ts`. -/
structure McpServerEntry where
  command : String
  args : List String
  env : Option (List (String × String))
  deriving DecidableEq, Repr

/-- A parsed config file, from `McpConfigFile` in `src/types/index.ts`:
a record mapping server names to entries. -/
structure McpConfigFile where
  mcpServers : List (String × McpServerEntry)
  deriving DecidableEq, Repr

/-- Discovery settings, from the initial store state in the zustand store. -/
structure DiscoverySettings where
  mcpDirectoryEnabled : Bool
  httpServerEnabled : Bool
  httpServerPort : Nat
  deriving DecidableEq, Repr

/-- Application settings, from `AppSettings` in `src/types/index.ts`
together with the `discovery` block present in the store's initial state. -/
structure AppSettings where
  theme : String
  autoStart : Bool
  createBackups : Bool
  backupRetentionDays : Nat
  discovery : DiscoverySettings
  deriving DecidableEq, Repr

/-- A detected client, from `DetectedClient` in `src/types/index.ts`. -/
structure DetectedClient where
  clientType : String
  configPath : String
  hasConfig : Bool
  deriving DecidableEq, Repr

/-!
## Frontend store (`useStore`, the zustand store in the sources)

The store's asynchronous actions call the Tauri backend via `invoke`; each
action is embedded as a pure state transition taking the backend call's
result (`Except String α`, an exception or a value) as an argument.
-/

/-- The slice of the zustand store state relevant to the claims, following
the `AppState` interface of the store source. -/
structure AppState where
  servers : List McpServer
  serversLoading : Bool
  serversError : Option String
  instances : List ClientInstance
  instancesLoading : Bool
  instancesError : Option String
  settings : AppSettings
  settingsLoading : Bool
  detectedClients : List DetectedClient
  deriving DecidableEq, Repr

/-- The initial store state passed to `create` in the zustand store source:
empty lists, no errors, and built-in default settings. -/
def initialState : AppState :=
  { servers := []
    serversLoading := false
    serversError := none
    instances := []
    instancesLoading := false
    instancesError := none
    settings :=
      { theme := "system"
        autoStart := false
        createBackups := true
        backupRetentionDays := 30
        discovery :=
          { mcpDirectoryEnabled := false
            httpServerEnabled := false
            httpServerPort := 24368 } }
    settingsLoading := false
    detectedClients := [] }

/-- The local-state update performed by `setServerEnabled` in the store:
map over the instances; the instance whose id matches gets its
`enabledServers` replaced by the prior list with `serverId` appended (when
enabling) or with every occurrence of `serverId` filtered out (when
disabling); every other instance is returned unchanged. -/
def setServerEnabledLocal (instances : List ClientInstance)
    (instanceId serverId : String) (enabled : Bool) : List ClientInstance :=
  instances.map fun inst =>
    if inst.id ≠ instanceId then inst
    else
      let enabledServers :=
        if enabled then inst.enabledServers ++ [serverId]
        else inst.enabledServers.filter fun id => id ≠ serverId
      { inst with enabledServers := enabledServers }

/-- The store's `readConfigFile` action: invoke the backend `read_config_file`
command and return the parsed document, or `none` whenever the invocation
throws (the source wraps the call in `try`/`catch` and returns `null` from
the catch-all handler). -/
def readConfigFile (backendResult : Except String McpConfigFile) :
    Option McpConfigFile :=
  match backendResult with
  | .ok config => some config
  | .error _ => none

/-- The store's `loadSettings` action: set the loading flag, invoke the
backend `get_settings` command, then on success store the settings and clear
the flag, and on failure only clear the flag (the source logs the error and
leaves `settings` untouched). -/
def loadSettings (st : AppState) (backendResult : Except String AppSettings) :
    AppState :=
  let started := { st with settingsLoading := true }
  match backendResult with
  | .ok settings => { started with settings := settings, settingsLoading := false }
  | .error _ => { started with settingsLoading := false }

/-!
## Drift predicates (`src/pages/Instances.tsx` and the Dashboard component)
-/

/-- The `needsSync` helper of `src/pages/Instances.tsx` (lines 94-102):
never synced means needs sync; otherwise, modified strictly after the last
sync means needs sync; otherwise not. -/
def needsSync (inst : ClientInstance) : Bool :=
  match inst.lastSynced with
  | none => true
  | some lastSynced =>
    match inst.lastModified with
    | some lastModified => decide (lastSynced < lastModified)
    | none => false

/-- The Dashboard's per-instance "Needs Sync" test: the filter predicate of
`needsSync = instances.filter((i) => !i.lastSynced)`. -/
def dashboardNeedsSync (inst : ClientInstance) : Bool :=
  inst.lastSynced.isNone

/-- The Dashboard's per-instance "Synced" test: the filter predicate of
`recentlySynced = instances.filter((i) => i.lastSynced)`. -/
def dashboardRecentlySynced (inst : ClientInstance) : Bool :=
  inst.lastSynced.isSome

/-- The Dashboard's "Needs Sync" list. -/
def dashboardNeedsSyncList (instances : List ClientInstance) :
    List ClientInstance :=
  instances.filter dashboardNeedsSync

/-- The Dashboard's "Synced" list. -/
def dashboardRecentlySyncedList (instances : List ClientInstance) :
    List ClientInstance :=
  instances.filter dashboardRecentlySynced

/-!
## Backend reconciliation core

The Rust backend behind the Tauri commands (`sync_instance`,
`sync_all_instances`, backup creation, config decoding and merging) is not
part of the sources; the definitions below are modelled from the
specification (spec sections 4.1 to 4.5, 6 and 7), as noted on each one.
-/

/-- Modelled from the spec: the client-kind-specific on-disk document format
(spec section 3, `ExternalConfigFile`) is a structured JSON-like document. -/
inductive Json where
  | null
  | bool (b : Bool)
  | num (n : Int)
  | str (s : String)
  | arr (elems : List Json)
  | obj (entries : List (String × Json))
  deriving Repr

/-- A top-level config document: an object, represented by its entry list. -/
abbrev Doc := List (String × Json)

/-- First value bound to `key` in a document, if any. -/
def getKey : Doc → String → Option Json
  | [], _ => none
  | (k, v) :: rest, key => if k = key then some v else getKey rest key

/-- Modelled from the spec: the encode half of the Config Format Adapter
(spec section 4.1) writes the managed section under its client-specific
top-level key, replacing the prior binding in place and preserving every
other entry verbatim; a previously absent key is appended. -/
def setKey : Doc → String → Json → Doc
  | [], key, value => [(key, value)]
  | (k, v) :: rest, key, value =>
    if k = key then (key, value) :: rest else (k, v) :: setKey rest key value

mutual

/-- Modelled from the spec: the deterministic serialization of a document to
bytes performed by the missing backend before writing (spec section 4.1,
`encode`); a fixed, canonical JSON printer, so equal documents serialize to
identical bytes. -/
def encodeJson : Json → String
  | .null => "null"
  | .bool true => "true"
  | .bool false => "false"
  | .num n => toString n
  | .str s => "\"" ++ s ++ "\""
  | .arr elems => "[" ++ encodeElems elems ++ "]"
  | .obj entries => "\x7b" ++ encodeEntries entries ++ "\x7d"

/-- Serialization of array elements, comma separated. -/
def encodeElems : List Json → String
  | [] => ""
  | [j] => encodeJson j
  | j :: rest => encodeJson j ++ "," ++ encodeElems rest

/-- Serialization of object entries, comma separated. -/
def encodeEntries : Doc → String
  | [] => ""
  | [(k, v)] => "\"" ++ k ++ "\":" ++ encodeJson v
  | (k, v) :: rest => "\"" ++ k ++ "\":" ++ encodeJson v ++ "," ++ encodeEntries rest

end

/-- Bytes of a whole config document. -/
def encodeDoc (doc : Doc) : String :=
  encodeJson (.obj doc)

/-- Modelled from the spec: the state of the file at an instance's config
path as the missing backend observes it — absent, present but zero-length,
present non-empty but undecodable, or present with a decoded document
(spec sections 4.1 to 4.4). -/
inductive FileState where
  | absent
  | empty
  | corrupt
  | content (doc : Doc)
  deriving Repr

/-- Modelled from the spec: the per-instance failure kinds of the missing
backend reconciler (spec section 7). -/
inductive SyncError where
  | pathUnresolved
  | ioError (path : String)
  | configCorrupt
  deriving DecidableEq, Repr

/-- Modelled from the spec: the backup file name produced by the missing
Backup Manager embeds the owning instance and a sortable timestamp inside a
dedicated backup directory (spec section 4.3). -/
def backupPathFor (inst : ClientInstance) (now : Nat) : String :=
  "backups/" ++ inst.id ++ "-" ++ toString now ++ ".json"

/-- Modelled from the spec: the missing Backup Manager's `backup` (spec
sections 4.3 and 6): a no-op returning none when `createBackups` is off;
none when the file is absent or zero-length; otherwise the pre-existing
bytes are copied and the new backup path returned. -/
def backup (settings : AppSettings) (inst : ClientInstance) (now : Nat)
    (fs : FileState) : Option String :=
  if settings.createBackups = false then none
  else
    match fs with
    | .absent => none
    | .empty => none
    | .corrupt => some (backupPathFor inst now)
    | .content _ => some (backupPathFor inst now)

/-- Modelled from the spec: the decode half of the missing Config Format
Adapter as used by the Merge Engine (spec section 4.4, steps 1-2): an absent
file yields the empty document skeleton; zero-length or malformed bytes fail
with `configCorrupt`; otherwise the parsed document is returned. -/
def decodeFile : FileState → Except SyncError Doc
  | .absent => .ok []
  | .empty => .error .configCorrupt
  | .corrupt => .error .configCorrupt
  | .content doc => .ok doc

/-- First server in the registry whose id matches, if any. -/
def findServer (registry : List McpServer) (serverId : String) :
    Option McpServer :=
  registry.find? fun s => s.id = serverId

/-- The canonical on-disk shape of one server entry: `{command, args, env}`
(spec section 4.4, step 3; the name is used as the key, not repeated in the
value). -/
def serverEntryJson (s : McpServer) : Json :=
  .obj [("command", .str s.command),
        ("args", .arr (s.args.map .str)),
        ("env", .obj (s.env.map fun kv => (kv.1, .str kv.2)))]

/-- Keep only the first entry for each key, in order (spec section 4.4,
step 3: duplicate resulting names keep the first in enablement order). -/
def dedupeByKey (seen : List String) : Doc → Doc
  | [] => []
  | (k, v) :: rest =>
    if k ∈ seen then dedupeByKey seen rest
    else (k, v) :: dedupeByKey (k :: seen) rest

/-- Modelled from the spec: the missing Merge Engine's managed-section
construction (spec section 4.4, step 3): walk the enabled server ids in
stored order, resolve each against the registry, skip identifiers that no
longer resolve, map each resolved server to its entry keyed by name, and
keep the first entry for each duplicated name. -/
def buildManagedSection (registry : List McpServer)
    (enabledServers : List String) : Doc :=
  dedupeByKey []
    (enabledServers.filterMap fun sid =>
      (findServer registry sid).map fun s => (s.name, serverEntryJson s))

/-- The outcome of one reconciliation attempt: the result surfaced to the
caller (the created backup path on success, spec section 4.5), the document
written (when the write happened), and the backup files created during the
attempt. -/
structure SyncAttempt where
  outcome : Except SyncError (Option String)
  written : Option Doc
  backupsCreated : List String
  deriving Repr

/-- Modelled from the spec: the missing Reconciler's `syncOne` (spec
section 4.5): resolve the config path (failing with `pathUnresolved` on an
unusable path); read the existing file; invoke the Backup Manager on the
pre-existing bytes before any write; decode and merge via the adapter,
failing with `configCorrupt` on undecodable content; then write the merged
document, failing with an IO error when the path is not writable.  On
success the created backup path (or none) is returned. -/
def syncOne (registry : List McpServer) (settings : AppSettings)
    (inst : ClientInstance) (fs : FileState) (writable : Bool) (now : Nat) :
    SyncAttempt :=
  if inst.configPath = "" then
    { outcome := .error .pathUnresolved, written := none, backupsCreated := [] }
  else
    let backupPath := backup settings inst now fs
    match decodeFile fs with
    | .error e =>
      { outcome := .error e, written := none,
        backupsCreated := backupPath.toList }
    | .ok doc =>
      let managed := buildManagedSection registry inst.enabledServers
      let newDoc := setKey doc "mcpServers" (Json.obj managed)
      if writable then
        { outcome := .ok backupPath, written := some newDoc,
          backupsCreated := backupPath.toList }
      else
        { outcome := .error (.ioError inst.configPath), written := none,
          backupsCreated := backupPath.toList }

/-- One entry of the aggregate sync-all result: the instance and its
success-with-backup-path or failure-with-reason outcome. -/
structure SyncAllEntry where
  instanceId : String
  outcome : Except SyncError (Option String)
  deriving Repr

/-- Modelled from the spec: the missing backend's `sync_all_instances`
(spec section 4.5, `syncAll`): iterate every instance in order, attempt each
one's sync against its own config path, record the outcome, and continue
with the remaining instances whether or not the attempt failed. -/
def syncAll (registry : List McpServer) (settings : AppSettings)
    (instances : List ClientInstance) (fsOf : String → FileState)
    (writableOf : String → Bool) (now : Nat) : List SyncAllEntry :=
  match instances with
  | [] => []
  | inst :: rest =>
    let attempt :=
      syncOne registry settings inst (fsOf inst.configPath)
        (writableOf inst.configPath) now
    { instanceId := inst.id, outcome := attempt.outcome } ::
      syncAll registry settings rest fsOf writableOf now

/-!
## Helper lemmas
-/

/-- Writing the same key twice collapses to writing it once. -/
theorem setKey_setKey (l : Doc) (k : String) (v w : Json) :
    setKey (setKey l k v) k w = setKey l k w := by
  induction l with
  | nil => simp [setKey]
  | cons hd tl ih =>
    obtain ⟨k2, v2⟩ := hd
    by_cases h : k2 = k
    · simp [setKey, h]
    · simp [setKey, h, ih]

/-- Writing one key leaves every other key's binding unchanged. -/
theorem getKey_setKey_ne (l : Doc) (k key : String) (v : Json)
    (h : key ≠ k) : getKey (setKey l k v) key = getKey l key := by
  induction l with
  | nil => simp [setKey, getKey, Ne.symm h]
  | cons hd tl ih =>
    obtain ⟨k2, v2⟩ := hd
    by_cases hk : k2 = k
    · simp [setKey, getKey, hk, Ne.symm h]
    · simp [setKey, getKey, hk, ih]

/-!
## Claims
-/

/-- C1: the drift predicate is the spec's pure function — `needsSync inst`
is true iff `inst.lastSynced` is null, or `inst.lastModified` is present and
strictly greater than `inst.lastSynced`; in particular a never-synced
instance needs sync, and a synced instance with no `lastModified` does
not. -/
theorem needsSync_spec (inst : ClientInstance) :
    (needsSync inst = true ↔
      inst.lastSynced = none ∨
        ∃ lm ls, inst.lastModified = some lm ∧ inst.lastSynced = some ls ∧
          ls < lm) ∧
    (inst.lastSynced = none → needsSync inst = true) ∧
    (∀ ls, inst.lastSynced = some ls → inst.lastModified = none →
      needsSync inst = false) := by
  obtain ⟨id, name, ct, cp, es, df, lsy, lmo, ca⟩ := inst
  refine ⟨?_, ?_, ?_⟩ <;>
    cases lsy <;> cases lmo <;> simp [needsSync]

/-- Witness for C1 at a concrete never-synced instance. -/
theorem needsSync_spec_witness :
    needsSync
      { id := "i1", name := "A", clientType := "claude-desktop",
        configPath := "/cfg.json", enabledServers := [], isDefault := false,
        lastSynced := none, lastModified := none, createdAt := 0 } = true :=
  (needsSync_spec
    { id := "i1", name := "A", clientType := "claude-desktop",
      configPath := "/cfg.json", enabledServers := [], isDefault := false,
      lastSynced := none, lastModified := none, createdAt := 0 }).2.1 rfl

/-- C2 counterexample: an instance synced at time 1 and modified at time 2
is flagged by the Instances page's `needsSync` but counted as "Synced", not
"Needs Sync", by the Dashboard partition — so the two computations are not
extensionally equal. -/
theorem dashboard_drift_counterexample :
    needsSync
      { id := "i1", name := "A", clientType := "claude-desktop",
        configPath := "/cfg.json", enabledServers := [], isDefault := false,
        lastSynced := some 1, lastModified := some 2, createdAt := 0 } = true ∧
    dashboardNeedsSync
      { id := "i1", name := "A", clientType := "claude-desktop",
        configPath := "/cfg.json", enabledServers := [], isDefault := false,
        lastSynced := some 1, lastModified := some 2, createdAt := 0 } = false ∧
    dashboardNeedsSyncList
      [{ id := "i1", name := "A", clientType := "claude-desktop",
         configPath := "/cfg.json", enabledServers := [], isDefault := false,
         lastSynced := some 1, lastModified := some 2, createdAt := 0 }] = [] ∧
    dashboardRecentlySyncedList
      [{ id := "i1", name := "A", clientType := "claude-desktop",
         configPath := "/cfg.json", enabledServers := [], isDefault := false,
         lastSynced := some 1, lastModified := some 2, createdAt := 0 }] =
      [{ id := "i1", name := "A", clientType := "claude-desktop",
         configPath := "/cfg.json", enabledServers := [], isDefault := false,
         lastSynced := some 1, lastModified := some 2, createdAt := 0 }] := by
  refine ⟨rfl, rfl, rfl, rfl⟩

/-- C2 (amended): the Dashboard's "Needs Sync" classification (null
`lastSynced`) implies the Instances page's `needsSync`, and the latter holds
exactly when the Dashboard flags the instance or the instance was modified
strictly after its last sync; the two disagree precisely on instances with a
non-null `lastSynced` and a strictly later `lastModified`. -/
theorem dashboard_vs_needsSync (inst : ClientInstance) :
    (dashboardNeedsSync inst = true → needsSync inst = true) ∧
    (needsSync inst = true ↔
      dashboardNeedsSync inst = true ∨
        ∃ lm ls, inst.lastModified = some lm ∧ inst.lastSynced = some ls ∧
          ls < lm) := by
  obtain ⟨id, name, ct, cp, es, df, lsy, lmo, ca⟩ := inst
  refine ⟨?_, ?_⟩ <;>
    cases lsy <;> cases lmo <;>
      simp [needsSync, dashboardNeedsSync]

/-- Witness for C2's amended theorem at a concrete never-synced instance. -/
theorem dashboard_vs_needsSync_witness :
    needsSync
      { id := "i2", name := "B", clientType := "cursor",
        configPath := "/b.json", enabledServers := [], isDefault := false,
        lastSynced := none, lastModified := none, createdAt := 0 } = true :=
  (dashboard_vs_needsSync
    { id := "i2", name := "B", clientType := "cursor",
      configPath := "/b.json", enabledServers := [], isDefault := false,
      lastSynced := none, lastModified := none, createdAt := 0 }).1 rfl

/-- C8: postcondition of the store's `setServerEnabled` local-state update:
every non-matching instance is unchanged; the matching instance keeps every
other field and gets `serverId` appended unconditionally when enabling (one
more occurrence even when already present) and every occurrence of
`serverId` removed when disabling. -/
theorem setServerEnabledLocal_post (instances : List ClientInstance)
    (instanceId serverId : String) (enabled : Bool) :
    (setServerEnabledLocal instances instanceId serverId enabled).length =
      instances.length ∧
    (∀ i inst, instances.get? i = some inst → inst.id ≠ instanceId →
      (setServerEnabledLocal instances instanceId serverId enabled).get? i =
        some inst) ∧
    (∀ i inst, instances.get? i = some inst → inst.id = instanceId →
      (setServerEnabledLocal instances instanceId serverId enabled).get? i =
        some { inst with enabledServers :=
          if enabled then inst.enabledServers ++ [serverId]
          else inst.enabledServers.filter fun id => id ≠ serverId }) ∧
    (∀ i inst, instances.get? i = some inst → inst.id = instanceId →
      enabled = true →
      ∃ inst2,
        (setServerEnabledLocal instances instanceId serverId enabled).get? i =
          some inst2 ∧
        inst2.enabledServers.count serverId =
          inst.enabledServers.count serverId + 1) ∧
    (∀ i inst, instances.get? i = some inst → inst.id = instanceId →
      enabled = false →
      ∃ inst2,
        (setServerEnabledLocal instances instanceId serverId enabled).get? i =
          some inst2 ∧
        serverId ∉ inst2.enabledServers) := by
  have hmap : ∀ i inst, instances.get? i = some inst →
      (setServerEnabledLocal instances instanceId serverId enabled).get? i =
        some (if inst.id ≠ instanceId then inst
          else { inst with enabledServers :=
            if enabled then inst.enabledServers ++ [serverId]
            else inst.enabledServers.filter fun id => id ≠ serverId }) := by
    intro i inst h
    unfold setServerEnabledLocal
    rw [List.get?_map, h]
    rfl
  refine ⟨?_, ?_, ?_, ?_, ?_⟩
  · exact List.length_map instances _
  · intro i inst h hne
    rw [hmap i inst h, if_pos hne]
  · intro i inst h heq
    rw [hmap i inst h, if_neg (by simp [heq])]
  · intro i inst h heq hen
    refine ⟨_, hmap i inst h, ?_⟩
    simp [heq, hen, List.count_append]
  · intro i inst h heq hen
    refine ⟨_, hmap i inst h, ?_⟩
    simp [heq, hen, List.mem_filter]

/-- Witness for C8: enabling a server already in the matching instance's
list appends a duplicate, and the non-matching instance is untouched. -/
theorem setServerEnabledLocal_post_witness :
    (setServerEnabledLocal
      [{ id := "a", name := "A", clientType := "zed", configPath := "/a",
         enabledServers := ["s1"], isDefault := false, lastSynced := none,
         lastModified := none, createdAt := 0 },
       { id := "b", name := "B", clientType := "zed", configPath := "/b",
         enabledServers := ["s1"], isDefault := false, lastSynced := none,
         lastModified := none, createdAt := 0 }] "a" "s1" true).get? 0 =
      some
        { id := "a", name := "A", clientType := "zed", configPath := "/a",
          enabledServers := ["s1", "s1"], isDefault := false,
          lastSynced := none, lastModified := none, createdAt := 0 } ∧
    (setServerEnabledLocal
      [{ id := "a", name := "A", clientType := "zed", configPath := "/a",
         enabledServers := ["s1"], isDefault := false, lastSynced := none,
         lastModified := none, createdAt := 0 },
       { id := "b", name := "B", clientType := "zed", configPath := "/b",
         enabledServers := ["s1"], isDefault := false, lastSynced := none,
         lastModified := none, createdAt := 0 }] "a" "s1" true).get? 1 =
      some
        { id := "b", name := "B", clientType := "zed", configPath := "/b",
          enabledServers := ["s1"], isDefault := false, lastSynced := none,
          lastModified := none, createdAt := 0 } := by
  constructor
  · exact (setServerEnabledLocal_post
      [{ id := "a", name := "A", clientType := "zed", configPath := "/a",
         enabledServers := ["s1"], isDefault := false, lastSynced := none,
         lastModified := none, createdAt := 0 },
       { id := "b", name := "B", clientType := "zed", configPath := "/b",
         enabledServers := ["s1"], isDefault := false, lastSynced := none,
         lastModified := none, createdAt := 0 }] "a" "s1" true).2.2.1 0 _
      rfl rfl
  · exact (setServerEnabledLocal_post
      [{ id := "a", name := "A", clientType := "zed", configPath := "/a",
         enabledServers := ["s1"], isDefault := false, lastSynced := none,
         lastModified := none, createdAt := 0 },
       { id := "b", name := "B", clientType := "zed", configPath := "/b",
         enabledServers := ["s1"], isDefault := false, lastSynced := none,
         lastModified := none, createdAt := 0 }] "a" "s1" true).2.1 1 _
      rfl (by decide)

/-- C9: the store's `readConfigFile` never rejects — it returns the parsed
document when the backend call succeeds and `none` whenever the backend
invocation throws, never propagating the error. -/
theorem readConfigFile_total (config : McpConfigFile) (message : String) :
    readConfigFile (.ok config) = some config ∧
    readConfigFile (.error message) = none ∧
    ∀ backendResult : Except String McpConfigFile,
      readConfigFile backendResult = none ∨
        ∃ parsed, backendResult = .ok parsed ∧
          readConfigFile backendResult = some parsed := by
  refine ⟨rfl, rfl, ?_⟩
  intro backendResult
  cases backendResult with
  | ok c => exact Or.inr ⟨c, rfl, rfl⟩
  | error e => exact Or.inl rfl

/-- C3: `syncAll` isolates per-target failures — its result has exactly one
entry per instance, in order, and the i-th entry carries the i-th instance's
own `syncOne` outcome (success with the created backup path, or failure with
its reason), independent of whether any earlier instance failed. -/
theorem syncAll_per_instance (registry : List McpServer)
    (settings : AppSettings) (instances : List ClientInstance)
    (fsOf : String → FileState) (writableOf : String → Bool) (now : Nat) :
    (syncAll registry settings instances fsOf writableOf now).length =
      instances.length ∧
    ∀ i inst, instances.get? i = some inst →
      (syncAll registry settings instances fsOf writableOf now).get? i =
        some { instanceId := inst.id,
               outcome := (syncOne registry settings inst
                 (fsOf inst.configPath) (writableOf inst.configPath)
                 now).outcome } := by
  constructor
  · induction instances with
    | nil => rfl
    | cons a rest ih => simpa [syncAll] using ih
  · intro i inst h
    induction instances generalizing i with
    | nil => simp at h
    | cons a rest ih =>
      cases i with
      | zero =>
        rw [List.get?_cons_zero] at h
        cases h
        rfl
      | succ n =>
        rw [List.get?_cons_succ] at h
        exact ih n h

/-- Witness for C3, mirroring the spec's three-instance scenario: the second
instance's path is unwritable, yet all three get an entry — success for the
first and third, an IO failure for the second. -/
theorem syncAll_per_instance_witness :
    (syncAll [] initialState.settings
      [{ id := "i1", name := "A", clientType := "zed", configPath := "/a",
         enabledServers := [], isDefault := false, lastSynced := none,
         lastModified := none, createdAt := 0 },
       { id := "i2", name := "B", clientType := "zed", configPath := "/bad",
         enabledServers := [], isDefault := false, lastSynced := none,
         lastModified := none, createdAt := 0 },
       { id := "i3", name := "C", clientType := "zed", configPath := "/c",
         enabledServers := [], isDefault := false, lastSynced := none,
         lastModified := none, createdAt := 0 }]
      (fun _ => FileState.absent)
      (fun path => if path = "/bad" then false else true) 0).get? 1 =
      some { instanceId := "i2", outcome := .error (.ioError "/bad") } ∧
    (syncAll [] initialState.settings
      [{ id := "i1", name := "A", clientType := "zed", configPath := "/a",
         enabledServers := [], isDefault := false, lastSynced := none,
         lastModified := none, createdAt := 0 },
       { id := "i2", name := "B", clientType := "zed", configPath := "/bad",
         enabledServers := [], isDefault := false, lastSynced := none,
         lastModified := none, createdAt := 0 },
       { id := "i3", name := "C", clientType := "zed", configPath := "/c",
         enabledServers := [], isDefault := false, lastSynced := none,
         lastModified := none, createdAt := 0 }]
      (fun _ => FileState.absent)
      (fun path => if path = "/bad" then false else true) 0).get? 2 =
      some { instanceId := "i3", outcome := .ok none } := by
  constructor
  · have h := (syncAll_per_instance [] initialState.settings
      [{ id := "i1", name := "A", clientType := "zed", configPath := "/a",
         enabledServers := [], isDefault := false, lastSynced := none,
         lastModified := none, createdAt := 0 },
       { id := "i2", name := "B", clientType := "zed", configPath := "/bad",
         enabledServers := [], isDefault := false, lastSynced := none,
         lastModified := none, createdAt := 0 },
       { id := "i3", name := "C", clientType := "zed", configPath := "/c",
         enabledServers := [], isDefault := false, lastSynced := none,
         lastModified := none, createdAt := 0 }]
      (fun _ => FileState.absent)
      (fun path => if path = "/bad" then false else true) 0).2 1 _ rfl
    rw [h]
    rfl
  · have h := (syncAll_per_instance [] initialState.settings
      [{ id := "i1", name := "A", clientType := "zed", configPath := "/a",
         enabledServers := [], isDefault := false, lastSynced := none,
         lastModified := none, createdAt := 0 },
       { id := "i2", name := "B", clientType := "zed", configPath := "/bad",
         enabledServers := [], isDefault := false, lastSynced := none,
         lastModified := none, createdAt := 0 },
       { id := "i3", name := "C", clientType := "zed", configPath := "/c",
         enabledServers := [], isDefault := false, lastSynced := none,
         lastModified := none, createdAt := 0 }]
      (fun _ => FileState.absent)
      (fun path => if path = "/bad" then false else true) 0).2 2 _ rfl
    rw [h]
    rfl

/-- C4 counterexample: with backups disabled in settings, a successful sync
of an instance whose path holds a pre-existing file still returns none — so
"none exactly when no file pre-existed" fails as stated. -/
theorem syncOne_outcome_counterexample :
    (syncOne []
      { theme := "system", autoStart := false, createBackups := false,
        backupRetentionDays := 30,
        discovery := { mcpDirectoryEnabled := false,
                       httpServerEnabled := false, httpServerPort := 24368 } }
      { id := "i1", name := "A", clientType := "zed",
        configPath := "/cfg.json", enabledServers := [], isDefault := false,
        lastSynced := none, lastModified := none, createdAt := 0 }
      (.content [("a", Json.null)]) true 0).outcome = .ok none ∧
    FileState.content [("a", Json.null)] ≠ FileState.absent :=
  ⟨rfl, fun hh => nomatch hh⟩

/-- C4 (amended): a successful single sync returns the created backup path,
or none exactly when no file pre-existed at the instance's config path or
backup creation is disabled in settings; failures (here, undecodable
pre-existing content) are propagated as errors, never as normal results. -/
theorem syncOne_outcome_spec (registry : List McpServer)
    (settings : AppSettings) (inst : ClientInstance) (fs : FileState)
    (writable : Bool) (now : Nat) :
    (∀ r, (syncOne registry settings inst fs writable now).outcome = .ok r →
      (r = none ↔ fs = .absent ∨ settings.createBackups = false)) ∧
    (inst.configPath ≠ "" → fs = .corrupt →
      (syncOne registry settings inst fs writable now).outcome =
        .error .configCorrupt) := by
  constructor
  · intro r hr
    by_cases hp : inst.configPath = ""
    · simp [syncOne, hp] at hr
    · cases hcb : settings.createBackups <;>
        cases fs <;> cases writable <;>
          simp_all [syncOne, decodeFile, backup, backupPathFor]
      simp [← hr]
  · intro hp hfs
    subst hfs
    simp [syncOne, hp, decodeFile]

/-- Witness for C4's amended theorem: a corrupt pre-existing file makes the
sync fail with `configCorrupt` instead of returning a normal result. -/
theorem syncOne_outcome_spec_witness :
    (syncOne [] initialState.settings
      { id := "i1", name := "A", clientType := "zed",
        configPath := "/cfg.json", enabledServers := [], isDefault := false,
        lastSynced := none, lastModified := none, createdAt := 0 }
      .corrupt true 0).outcome = .error .configCorrupt :=
  (syncOne_outcome_spec [] initialState.settings
    { id := "i1", name := "A", clientType := "zed",
      configPath := "/cfg.json", enabledServers := [], isDefault := false,
      lastSynced := none, lastModified := none, createdAt := 0 }
    .corrupt true 0).2 (by decide) rfl

/-- C5 counterexample: with backups disabled in settings, syncing an
instance whose path holds non-empty content creates no BackupRecord — not
exactly one as claimed. -/
theorem backup_gating_counterexample :
    (syncOne []
      { theme := "system", autoStart := false, createBackups := false,
        backupRetentionDays := 30,
        discovery := { mcpDirectoryEnabled := false,
                       httpServerEnabled := false, httpServerPort := 24368 } }
      { id := "i1", name := "A", clientType := "zed",
        configPath := "/cfg.json", enabledServers := [], isDefault := false,
        lastSynced := none, lastModified := none, createdAt := 0 }
      (.content [("a", Json.null)]) true 0).backupsCreated.length = 0 ∧
    (syncOne []
      { theme := "system", autoStart := false, createBackups := false,
        backupRetentionDays := 30,
        discovery := { mcpDirectoryEnabled := false,
                       httpServerEnabled := false, httpServerPort := 24368 } }
      { id := "i1", name := "A", clientType := "zed",
        configPath := "/cfg.json", enabledServers := [], isDefault := false,
        lastSynced := none, lastModified := none, createdAt := 0 }
      (.content [("a", Json.null)]) true 0).backupsCreated.length ≠ 1 :=
  ⟨rfl, by decide⟩

/-- C5 (amended): `backup` returns none for an absent or zero-length file
and produces a backup only for a file that existed non-empty; and a sync of
an instance with a resolvable path whose path holds non-empty content —
parseable or not, since the backup is taken before decoding — creates
exactly one new backup, provided `createBackups` is enabled in settings. -/
theorem backup_gating (registry : List McpServer) (settings : AppSettings)
    (inst : ClientInstance) (fs : FileState) (writable : Bool)
    (now : Nat) (p : String) :
    backup settings inst now .absent = none ∧
    backup settings inst now .empty = none ∧
    (backup settings inst now fs = some p → fs ≠ .absent ∧ fs ≠ .empty) ∧
    (settings.createBackups = true → inst.configPath ≠ "" →
      fs ≠ .absent → fs ≠ .empty →
      (syncOne registry settings inst fs writable
        now).backupsCreated.length = 1) := by
  refine ⟨?_, ?_, ?_, ?_⟩
  · simp [backup]
  · simp [backup]
  · intro h
    cases fs <;> simp_all [backup]
  · intro hcb hp hna hne
    cases fs with
    | absent => exact absurd rfl hna
    | empty => exact absurd rfl hne
    | corrupt => simp [syncOne, hp, decodeFile, backup, hcb]
    | content doc =>
      cases writable <;>
        simp [syncOne, hp, decodeFile, backup, hcb]

/-- Witness for C5's amended theorem: with default settings (backups on), a
sync over a pre-existing non-empty file creates exactly one backup, whether
the file is parseable or corrupt. -/
theorem backup_gating_witness :
    (syncOne [] initialState.settings
      { id := "i1", name := "A", clientType := "zed",
        configPath := "/cfg.json", enabledServers := [], isDefault := false,
        lastSynced := none, lastModified := none, createdAt := 0 }
      (.content [("a", Json.null)]) true 0).backupsCreated.length = 1 ∧
    (syncOne [] initialState.settings
      { id := "i1", name := "A", clientType := "zed",
        configPath := "/cfg.json", enabledServers := [], isDefault := false,
        lastSynced := none, lastModified := none, createdAt := 0 }
      .corrupt true 0).backupsCreated.length = 1 :=
  ⟨(backup_gating [] initialState.settings
      { id := "i1", name := "A", clientType := "zed",
        configPath := "/cfg.json", enabledServers := [], isDefault := false,
        lastSynced := none, lastModified := none, createdAt := 0 }
      (.content [("a", Json.null)]) true 0 "p").2.2.2 rfl (by decide)
      (fun hh => nomatch hh) (fun hh => nomatch hh),
   (backup_gating [] initialState.settings
      { id := "i1", name := "A", clientType := "zed",
        configPath := "/cfg.json", enabledServers := [], isDefault := false,
        lastSynced := none, lastModified := none, createdAt := 0 }
      .corrupt true 0 "p").2.2.2 rfl (by decide)
      (fun hh => nomatch hh) (fun hh => nomatch hh)⟩

/-- C6: reconciliation is idempotent — if a sync wrote document `d`, a
second sync over `d` with the same registry and instance writes `d` again,
and the serialized bytes of the second write equal those of the first. -/
theorem syncOne_idempotent (registry : List McpServer)
    (settings : AppSettings) (inst : ClientInstance) (fs : FileState)
    (writable : Bool) (now1 now2 : Nat) (d : Doc)
    (h : (syncOne registry settings inst fs writable now1).written = some d) :
    (syncOne registry settings inst (.content d) writable now2).written =
      some d ∧
    ((syncOne registry settings inst (.content d) writable
      now2).written).map encodeDoc = some (encodeDoc d) := by
  by_cases hp : inst.configPath = ""
  · simp [syncOne, hp] at h
  · cases writable with
    | false =>
      cases hfs : decodeFile fs <;> simp [syncOne, hp, hfs] at h
    | true =>
      cases hfs : decodeFile fs with
      | error e => simp [syncOne, hp, hfs] at h
      | ok doc =>
        simp [syncOne, hp, hfs] at h
        constructor
        · simp [syncOne, hp, decodeFile, ← h, setKey_setKey]
        · simp [syncOne, hp, decodeFile, ← h, setKey_setKey]

/-- Witness for C6: a first sync from an absent file writes a concrete
document, and a second sync over that document writes it unchanged. -/
theorem syncOne_idempotent_witness :
    (syncOne
      [{ id := "srv1", name := "files", description := none,
         command := "node", args := ["server.js"], env := [], tags := [],
         createdAt := 0, updatedAt := 0 }]
      initialState.settings
      { id := "i1", name := "A", clientType := "zed",
        configPath := "/cfg.json", enabledServers := ["srv1", "gone"],
        isDefault := false, lastSynced := none, lastModified := none,
        createdAt := 0 }
      (.content
        [("mcpServers",
          Json.obj [("files",
            Json.obj [("command", Json.str "node"),
                      ("args", Json.arr [Json.str "server.js"]),
                      ("env", Json.obj [])])])])
      true 1).written =
      some
        [("mcpServers",
          Json.obj [("files",
            Json.obj [("command", Json.str "node"),
                      ("args", Json.arr [Json.str "server.js"]),
                      ("env", Json.obj [])])])] :=
  (syncOne_idempotent
    [{ id := "srv1", name := "files", description := none,
       command := "node", args := ["server.js"], env := [], tags := [],
       createdAt := 0, updatedAt := 0 }]
    initialState.settings
    { id := "i1", name := "A", clientType := "zed",
      configPath := "/cfg.json", enabledServers := ["srv1", "gone"],
      isDefault := false, lastSynced := none, lastModified := none,
      createdAt := 0 }
    .absent true 0 1
    [("mcpServers",
      Json.obj [("files",
        Json.obj [("command", Json.str "node"),
                  ("args", Json.arr [Json.str "server.js"]),
                  ("env", Json.obj [])])])]
    rfl).1

/-- C7: every read-merge-write cycle preserves unmanaged content — any key
other than the managed `mcpServers` key is bound in the written document
exactly as it was in the pre-existing document. -/
theorem syncOne_preserves_unmanaged (registry : List McpServer)
    (settings : AppSettings) (inst : ClientInstance) (doc : Doc)
    (writable : Bool) (now : Nat) (key : String) (d : Doc)
    (hkey : key ≠ "mcpServers")
    (h : (syncOne registry settings inst (.content doc) writable
      now).written = some d) :
    getKey d key = getKey doc key := by
  by_cases hp : inst.configPath = ""
  · simp [syncOne, hp] at h
  · cases writable with
    | false => simp [syncOne, hp, decodeFile] at h
    | true =>
      simp [syncOne, hp, decodeFile] at h
      rw [← h]
      exact getKey_setKey_ne doc "mcpServers" key _ hkey

/-- Witness for C7: the unmanaged key `unrelatedSetting` survives a sync
that rewrites the managed section to a different desired server set. -/
theorem syncOne_preserves_unmanaged_witness :
    getKey
      [("unrelatedSetting", Json.bool true),
       ("mcpServers",
         Json.obj [("files",
           Json.obj [("command", Json.str "node"),
                     ("args", Json.arr [Json.str "server.js"]),
                     ("env", Json.obj [])])])]
      "unrelatedSetting" =
      getKey [("unrelatedSetting", Json.bool true), ("mcpServers", Json.obj [])]
        "unrelatedSetting" ∧
    getKey
      [("unrelatedSetting", Json.bool true),
       ("mcpServers",
         Json.obj [("files",
           Json.obj [("command", Json.str "node"),
                     ("args", Json.arr [Json.str "server.js"]),
                     ("env", Json.obj [])])])]
      "unrelatedSetting" = some (Json.bool true) :=
  ⟨syncOne_preserves_unmanaged
    [{ id := "srv1", name := "files", description := none,
       command := "node", args := ["server.js"], env := [], tags := [],
       createdAt := 0, updatedAt := 0 }]
    initialState.settings
    { id := "i1", name := "A", clientType := "zed",
      configPath := "/cfg.json", enabledServers := ["srv1"],
      isDefault := false, lastSynced := none, lastModified := none,
      createdAt := 0 }
    [("unrelatedSetting", Json.bool true), ("mcpServers", Json.obj [])]
    true 0 "unrelatedSetting"
    [("unrelatedSetting", Json.bool true),
     ("mcpServers",
       Json.obj [("files",
         Json.obj [("command", Json.str "node"),
                   ("args", Json.arr [Json.str "server.js"]),
                   ("env", Json.obj [])])])]
    (by decide) rfl, rfl⟩

/-- C10: the initial store settings hold the built-in defaults — in
particular `createBackups = true` and `backupRetentionDays = 30` — and a
`loadSettings` whose backend call fails leaves the settings (and every other
field) unchanged, only ending with the loading flag cleared. -/
theorem initial_settings_and_load_failure (st : AppState) (message : String) :
    initialState.settings.createBackups = true ∧
    initialState.settings.backupRetentionDays = 30 ∧
    (loadSettings st (.error message)).settings = st.settings ∧
    loadSettings st (.error message) = { st with settingsLoading := false } :=
  ⟨rfl, rfl, rfl, rfl⟩

end McpHub
